import Mathlib

/-!
Verification development for the `emergent` autonomous agent runtime.

The Python sources are shallowly embedded: pure functions become Lean
functions, the SQLite store and the APScheduler job store become explicit
lists of records, coroutine handlers become parameters supplying their
results, and Python exceptions become `Except` values.  Regular
expressions (module `re`) are embedded by a small executable backtracking
matcher over an abstract syntax of the exact patterns that appear in the
sources.
-/

/-! ## Regular expressions

Embedding of the subset of Python `re` used by the repository:
literals, character classes (with ranges and negation), the dot
(anything but a newline), concatenation, alternation, Kleene star,
the end anchor and the word boundary.  `re.IGNORECASE` is threaded as
a boolean flag.  The matcher is fuel-bounded; every star in the
repository's patterns has a body that consumes at least one character,
and the matcher only iterates a star when the body consumed input, so a
fuel of `(size + 2) * (length + 2)` is always sufficient.
-/

inductive Re where
  | eps
  | lit (c : Char)
  | cls (neg : Bool) (ranges : List (Char × Char))
  | dot
  | cat (r1 r2 : Re)
  | alt (r1 r2 : Re)
  | star (r : Re)
  | eos
  | wb
deriving Repr, DecidableEq

def Re.size : Re → Nat
  | .cat r1 r2 => r1.size + r2.size + 1
  | .alt r1 r2 => r1.size + r2.size + 1
  | .star r => r.size + 1
  | _ => 1

def litMatches (ci : Bool) (c d : Char) : Bool :=
  if ci then c.toLower == d.toLower else c == d

def inRanges (ranges : List (Char × Char)) (d : Char) : Bool :=
  ranges.any (fun ab => decide (ab.1 ≤ d) && decide (d ≤ ab.2))

def clsMatches (ci : Bool) (ranges : List (Char × Char)) (d : Char) : Bool :=
  inRanges ranges d || (ci && inRanges ranges d.toLower)

def isWordChar (c : Char) : Bool :=
  c.isAlphanum || c == '_'

def atBoundary (prev : Option Char) (s : List Char) : Bool :=
  let pw := match prev with
    | some c => isWordChar c
    | none => false
  let nw := match s with
    | c :: _ => isWordChar c
    | [] => false
  pw != nw

/-- One backtracking step relation on states `(previous char, remaining input)`;
returns every state reachable by matching the pattern against a prefix of the
remaining input. -/
def runRe (ci : Bool) : Nat → Re → Option Char → List Char → List (Option Char × List Char)
  | 0, _, _, _ => []
  | fuel + 1, r, prev, s =>
    match r with
    | .eps => [(prev, s)]
    | .lit c =>
      match s with
      | [] => []
      | d :: t => if litMatches ci c d then [(some d, t)] else []
    | .cls neg ranges =>
      match s with
      | [] => []
      | d :: t =>
        let m := clsMatches ci ranges d
        if (if neg then !m else m) then [(some d, t)] else []
    | .dot =>
      match s with
      | [] => []
      | d :: t => if d == '\n' then [] else [(some d, t)]
    | .cat r1 r2 =>
      (runRe ci fuel r1 prev s).flatMap (fun pr => runRe ci fuel r2 pr.1 pr.2)
    | .alt r1 r2 => runRe ci fuel r1 prev s ++ runRe ci fuel r2 prev s
    | .eos => if s.isEmpty then [(prev, s)] else []
    | .wb => if atBoundary prev s then [(prev, s)] else []
    | .star r1 =>
      (prev, s) ::
        (runRe ci fuel r1 prev s).flatMap
          (fun pr =>
            if pr.2.length < s.length then runRe ci fuel (.star r1) pr.1 pr.2 else [])

def reFuel (r : Re) (s : List Char) : Nat :=
  (r.size + 2) * (s.length + 2)

/-- Python `pattern.match`: anchored at the start of the string. -/
def reMatchL (ci : Bool) (r : Re) (s : List Char) : Bool :=
  !(runRe ci (reFuel r s) r none s).isEmpty

/-- Scan of all start positions, threading the previous character for `\b`. -/
def reSearchFrom (ci : Bool) (r : Re) : Option Char → List Char → Bool
  | prev, [] => !(runRe ci (reFuel r []) r prev []).isEmpty
  | prev, d :: t =>
    if (runRe ci (reFuel r (d :: t)) r prev (d :: t)).isEmpty then
      reSearchFrom ci r (some d) t
    else true

/-- Python `pattern.search`: a match may start at any position. -/
def reSearch (ci : Bool) (r : Re) (str : String) : Bool :=
  reSearchFrom ci r none str.data

def reMatch (ci : Bool) (r : Re) (str : String) : Bool :=
  reMatchL ci r str.data

/-! Pattern construction helpers. -/

def rcat : List Re → Re
  | [] => .eps
  | [r] => r
  | r :: rs => .cat r (rcat rs)

def ralt : List Re → Re
  | [] => .eps
  | [r] => r
  | r :: rs => .alt r (ralt rs)

def rstr (s : String) : Re := rcat (s.data.map Re.lit)

def rplus (r : Re) : Re := .cat r (.star r)

def ropt (r : Re) : Re := .alt r .eps

/-- Class `\s` -/
def rws : Re :=
  .cls false [(' ', ' '), ('\t', '\t'), ('\n', '\n'), ('\r', '\r'), ('\x0b', '\x0b'), ('\x0c', '\x0c')]

def rcls1 (cs : List Char) : Re := .cls false (cs.map (fun c => (c, c)))

def rncls (cs : List Char) : Re := .cls true (cs.map (fun c => (c, c)))

/-! ## Safety Classifier — `emergent/tools/registry.py`

Each list below embeds, in order, the raw patterns of
`_TIER3_PATTERNS`, `_TIER1_PATTERNS` and `_TIER2_SIGNALS`; all are
compiled with `re.IGNORECASE`.  The original pattern is given as a
comment above each entry.  A leading `^` is dropped for the TIER-1
patterns because the source checks them with `pattern.match`, which is
anchored at the start anyway; TIER-3 and TIER-2 use `pattern.search`.
-/

inductive SafetyTier where
  | TIER_1_AUTO
  | TIER_2_CONFIRM
  | TIER_3_BLOCKED
deriving Repr, DecidableEq

def TIER3_PATTERNS : List Re := [
  -- rm\s+-[rf]*r[rf]*\s
  rcat [rstr "rm", rplus rws, .lit '-', .star (rcls1 ['r', 'f']), .lit 'r',
        .star (rcls1 ['r', 'f']), rws],
  -- rm\s+--recursive
  rcat [rstr "rm", rplus rws, rstr "--recursive"],
  -- \bsudo\b
  rcat [.wb, rstr "sudo", .wb],
  -- \bsu\s+-
  rcat [.wb, rstr "su", rplus rws, .lit '-'],
  -- \bdoas\b
  rcat [.wb, rstr "doas", .wb],
  -- curl[^|]*\|[^|]*\b(bash|sh|zsh|fish|python|perl|ruby)\b
  rcat [rstr "curl", .star (rncls ['|']), .lit '|', .star (rncls ['|']), .wb,
        ralt [rstr "bash", rstr "sh", rstr "zsh", rstr "fish", rstr "python",
              rstr "perl", rstr "ruby"], .wb],
  -- wget[^|]*\|[^|]*\b(bash|sh|zsh|fish|python|perl|ruby)\b
  rcat [rstr "wget", .star (rncls ['|']), .lit '|', .star (rncls ['|']), .wb,
        ralt [rstr "bash", rstr "sh", rstr "zsh", rstr "fish", rstr "python",
              rstr "perl", rstr "ruby"], .wb],
  -- \|[^|]*\b(bash|sh|zsh|fish)\b\s*$
  rcat [.lit '|', .star (rncls ['|']), .wb,
        ralt [rstr "bash", rstr "sh", rstr "zsh", rstr "fish"], .wb, .star rws, .eos],
  -- \$\([^)]*\brm\b
  rcat [.lit '$', .lit '(', .star (rncls [')']), .wb, rstr "rm", .wb],
  -- \$\([^)]*\bkill\b
  rcat [.lit '$', .lit '(', .star (rncls [')']), .wb, rstr "kill", .wb],
  -- backtick, [^backtick]*, \brm\b   (the backtick char is written \x60)
  rcat [.lit '\x60', .star (rncls ['\x60']), .wb, rstr "rm", .wb],
  -- [;&|]\s*rm\s+
  rcat [rcls1 [';', '&', '|'], .star rws, rstr "rm", rplus rws],
  -- [;&|]\s*sudo\b
  rcat [rcls1 [';', '&', '|'], .star rws, rstr "sudo", .wb],
  -- [;&|]\s*mkfs\b
  rcat [rcls1 [';', '&', '|'], .star rws, rstr "mkfs", .wb],
  -- >\s*/etc/
  rcat [.lit '>', .star rws, rstr "/etc/"],
  -- >\s*/dev/(sda|hda|nvme|sd[a-z])
  rcat [.lit '>', .star rws, rstr "/dev/",
        ralt [rstr "sda", rstr "hda", rstr "nvme", rcat [rstr "sd", .cls false [('a', 'z')]]]],
  -- >\s*/boot/
  rcat [.lit '>', .star rws, rstr "/boot/"],
  -- >>\s*/etc/passwd
  rcat [rstr ">>", .star rws, rstr "/etc/passwd"],
  -- >>\s*/etc/shadow
  rcat [rstr ">>", .star rws, rstr "/etc/shadow"],
  -- >>\s*/etc/sudoers
  rcat [rstr ">>", .star rws, rstr "/etc/sudoers"],
  -- :\s*\(\s*\)\s*\x7b   (fork bomb; the opening brace is written \x7b)
  rcat [.lit ':', .star rws, .lit '(', .star rws, .lit ')', .star rws, .lit '\x7b'],
  -- while\s+true\s*;\s*do\s+.*fork
  rcat [rstr "while", rplus rws, rstr "true", .star rws, .lit ';', .star rws,
        rstr "do", rplus rws, .star .dot, rstr "fork"],
  -- \bdd\s+if=/dev/zero
  rcat [.wb, rstr "dd", rplus rws, rstr "if=/dev/zero"],
  -- \bdd\s+if=/dev/urandom.*of=/dev/
  rcat [.wb, rstr "dd", rplus rws, rstr "if=/dev/urandom", .star .dot, rstr "of=/dev/"],
  -- \bmkfs\b
  rcat [.wb, rstr "mkfs", .wb],
  -- \bfdisk\b
  rcat [.wb, rstr "fdisk", .wb],
  -- \bparted\b
  rcat [.wb, rstr "parted", .wb],
  -- chmod\s+[0-7]*[02467][0-7]*\s+/
  rcat [rstr "chmod", rplus rws, .star (.cls false [('0', '7')]),
        rcls1 ['0', '2', '4', '6', '7'], .star (.cls false [('0', '7')]), rplus rws, .lit '/'],
  -- chmod\s+777\s+/(etc|bin|sbin|usr|boot)
  rcat [rstr "chmod", rplus rws, rstr "777", rplus rws, .lit '/',
        ralt [rstr "etc", rstr "bin", rstr "sbin", rstr "usr", rstr "boot"]],
  -- \bnc\s.*\|\s*(bash|sh)
  rcat [.wb, rstr "nc", rws, .star .dot, .lit '|', .star rws, ralt [rstr "bash", rstr "sh"]],
  -- \b(cat|cp|mv|echo)\s+.*/(\.ssh/id_rsa|\.ssh/id_ed25519|\.env)
  rcat [.wb, ralt [rstr "cat", rstr "cp", rstr "mv", rstr "echo"], rplus rws, .star .dot,
        .lit '/', ralt [rstr ".ssh/id_rsa", rstr ".ssh/id_ed25519", rstr ".env"]],
  -- base64\s+-d[^|]*\|[^|]*\b(bash|sh)\b
  rcat [rstr "base64", rplus rws, rstr "-d", .star (rncls ['|']), .lit '|',
        .star (rncls ['|']), .wb, ralt [rstr "bash", rstr "sh"], .wb]
]

/-- Class `[\w./~\s-]` from the second `ls` allowlist pattern. -/
def lsTailCls : Re :=
  .cls false
    [('a', 'z'), ('A', 'Z'), ('0', '9'), ('_', '_'), ('.', '.'), ('/', '/'), ('~', '~'),
     (' ', ' '), ('\t', '\t'), ('\n', '\n'), ('\r', '\r'), ('\x0b', '\x0b'), ('\x0c', '\x0c'),
     ('-', '-')]

def TIER1_PATTERNS : List Re := [
  -- ^ls(\s|$)
  rcat [rstr "ls", .alt rws .eos],
  -- ^ls\s+(-[lha]+\s+)*[\w./~\s-]*$
  rcat [rstr "ls", rplus rws,
        .star (rcat [.lit '-', rplus (rcls1 ['l', 'h', 'a']), rplus rws]),
        .star lsTailCls, .eos],
  -- ^cat\s+
  rcat [rstr "cat", rplus rws],
  -- ^head\s+
  rcat [rstr "head", rplus rws],
  -- ^tail\s+
  rcat [rstr "tail", rplus rws],
  -- ^grep\s+
  rcat [rstr "grep", rplus rws],
  -- ^egrep\s+
  rcat [rstr "egrep", rplus rws],
  -- ^find\s+
  rcat [rstr "find", rplus rws],
  -- ^ps\s
  rcat [rstr "ps", rws],
  -- ^ps$
  rcat [rstr "ps", .eos],
  -- ^pgrep\s+
  rcat [rstr "pgrep", rplus rws],
  -- ^top\s+-b
  rcat [rstr "top", rplus rws, rstr "-b"],
  -- ^htop\s+-C
  rcat [rstr "htop", rplus rws, rstr "-C"],
  -- ^df\s
  rcat [rstr "df", rws],
  -- ^df$
  rcat [rstr "df", .eos],
  -- ^du\s
  rcat [rstr "du", rws],
  -- ^free\s
  rcat [rstr "free", rws],
  -- ^free$
  rcat [rstr "free", .eos],
  -- ^uptime$
  rcat [rstr "uptime", .eos],
  -- ^uname\s
  rcat [rstr "uname", rws],
  -- ^uname$
  rcat [rstr "uname", .eos],
  -- ^echo\s+
  rcat [rstr "echo", rplus rws],
  -- ^printf\s+
  rcat [rstr "printf", rplus rws],
  -- ^date$
  rcat [rstr "date", .eos],
  -- ^date\s
  rcat [rstr "date", rws],
  -- ^whoami$
  rcat [rstr "whoami", .eos],
  -- ^id$
  rcat [rstr "id", .eos],
  -- ^pwd$
  rcat [rstr "pwd", .eos],
  -- ^env$
  rcat [rstr "env", .eos],
  -- ^printenv\s
  rcat [rstr "printenv", rws],
  -- ^which\s+
  rcat [rstr "which", rplus rws],
  -- ^type\s+
  rcat [rstr "type", rplus rws],
  -- ^wc\s+
  rcat [rstr "wc", rplus rws],
  -- ^sort\s+
  rcat [rstr "sort", rplus rws],
  -- ^uniq\s+
  rcat [rstr "uniq", rplus rws],
  -- ^cut\s+
  rcat [rstr "cut", rplus rws],
  -- ^awk\s+
  rcat [rstr "awk", rplus rws],
  -- ^sed\s+-n\s+
  rcat [rstr "sed", rplus rws, rstr "-n", rplus rws],
  -- ^diff\s+
  rcat [rstr "diff", rplus rws],
  -- ^git\s+(status|log|diff|show|branch|remote|fetch|stash\s+list)
  rcat [rstr "git", rplus rws,
        ralt [rstr "status", rstr "log", rstr "diff", rstr "show", rstr "branch",
              rstr "remote", rstr "fetch", rcat [rstr "stash", rplus rws, rstr "list"]]],
  -- ^docker\s+(ps|images|logs|inspect|stats|info|version)
  rcat [rstr "docker", rplus rws,
        ralt [rstr "ps", rstr "images", rstr "logs", rstr "inspect", rstr "stats",
              rstr "info", rstr "version"]],
  -- ^docker-compose\s+(ps|logs)
  rcat [rstr "docker-compose", rplus rws, ralt [rstr "ps", rstr "logs"]],
  -- ^systemctl\s+(status|list-units|is-active|is-enabled)
  rcat [rstr "systemctl", rplus rws,
        ralt [rstr "status", rstr "list-units", rstr "is-active", rstr "is-enabled"]],
  -- ^journalctl\s+
  rcat [rstr "journalctl", rplus rws],
  -- ^netstat\s+
  rcat [rstr "netstat", rplus rws],
  -- ^ss\s+
  rcat [rstr "ss", rplus rws],
  -- ^ip\s+(addr|route|link)\s
  rcat [rstr "ip", rplus rws, ralt [rstr "addr", rstr "route", rstr "link"], rws],
  -- ^ifconfig$
  rcat [rstr "ifconfig", .eos],
  -- ^ping\s+
  rcat [rstr "ping", rplus rws],
  -- ^nslookup\s+
  rcat [rstr "nslookup", rplus rws],
  -- ^dig\s+
  rcat [rstr "dig", rplus rws],
  -- ^curl\s+-[^|]*$
  rcat [rstr "curl", rplus rws, .lit '-', .star (rncls ['|']), .eos],
  -- ^wget\s+-q[^|]*$
  rcat [rstr "wget", rplus rws, rstr "-q", .star (rncls ['|']), .eos],
  -- ^python3?\s+-c\s+.*(print|import\s+sys)
  rcat [rstr "python", ropt (.lit '3'), rplus rws, rstr "-c", rplus rws, .star .dot,
        ralt [rstr "print", rcat [rstr "import", rplus rws, rstr "sys"]]],
  -- ^pip\s+(list|show|freeze)
  rcat [rstr "pip", rplus rws, ralt [rstr "list", rstr "show", rstr "freeze"]],
  -- ^pip3\s+(list|show|freeze)
  rcat [rstr "pip3", rplus rws, ralt [rstr "list", rstr "show", rstr "freeze"]],
  -- ^uv\s+(run|pip\s+list)
  rcat [rstr "uv", rplus rws, ralt [rstr "run", rcat [rstr "pip", rplus rws, rstr "list"]]],
  -- ^npm\s+(list|info|outdated)
  rcat [rstr "npm", rplus rws, ralt [rstr "list", rstr "info", rstr "outdated"]],
  -- ^node\s+--version
  rcat [rstr "node", rplus rws, rstr "--version"],
  -- ^(python3?|pip3?|node|npm|git|docker)\s+--version
  rcat [ralt [rcat [rstr "python", ropt (.lit '3')], rcat [rstr "pip", ropt (.lit '3')],
              rstr "node", rstr "npm", rstr "git", rstr "docker"],
        rplus rws, rstr "--version"]
]

def TIER2_SIGNALS : List Re := [
  -- \bkill\b
  rcat [.wb, rstr "kill", .wb],
  -- \bpkill\b
  rcat [.wb, rstr "pkill", .wb],
  -- \bkillall\b
  rcat [.wb, rstr "killall", .wb],
  -- \brm\b
  rcat [.wb, rstr "rm", .wb],
  -- \bmv\b
  rcat [.wb, rstr "mv", .wb],
  -- \bcp\b.*-[rf]
  rcat [.wb, rstr "cp", .wb, .star .dot, .lit '-', rcls1 ['r', 'f']],
  -- \bmkdir\b
  rcat [.wb, rstr "mkdir", .wb],
  -- \btouch\b
  rcat [.wb, rstr "touch", .wb],
  -- \bchmod\b
  rcat [.wb, rstr "chmod", .wb],
  -- \bchown\b
  rcat [.wb, rstr "chown", .wb],
  -- \bsystemctl\s+(start|stop|restart|enable|disable|reload)
  rcat [.wb, rstr "systemctl", rplus rws,
        ralt [rstr "start", rstr "stop", rstr "restart", rstr "enable", rstr "disable",
              rstr "reload"]],
  -- \bdocker\s+(start|stop|restart|rm|rmi|pull|run|exec)
  rcat [.wb, rstr "docker", rplus rws,
        ralt [rstr "start", rstr "stop", rstr "restart", rstr "rm", rstr "rmi",
              rstr "pull", rstr "run", rstr "exec"]],
  -- \bdocker-compose\s+(up|down|restart|stop|start)
  rcat [.wb, rstr "docker-compose", rplus rws,
        ralt [rstr "up", rstr "down", rstr "restart", rstr "stop", rstr "start"]],
  -- \bpip\s+install\b
  rcat [.wb, rstr "pip", rplus rws, rstr "install", .wb],
  -- \bpip3\s+install\b
  rcat [.wb, rstr "pip3", rplus rws, rstr "install", .wb],
  -- \buv\s+add\b
  rcat [.wb, rstr "uv", rplus rws, rstr "add", .wb],
  -- \bnpm\s+install\b
  rcat [.wb, rstr "npm", rplus rws, rstr "install", .wb],
  -- \bapt(-get)?\s+(install|remove|purge|upgrade)\b
  rcat [.wb, rstr "apt", ropt (rstr "-get"), rplus rws,
        ralt [rstr "install", rstr "remove", rstr "purge", rstr "upgrade"], .wb],
  -- \byum\s+(install|remove)\b
  rcat [.wb, rstr "yum", rplus rws, ralt [rstr "install", rstr "remove"], .wb],
  -- \bsnap\s+(install|remove)\b
  rcat [.wb, rstr "snap", rplus rws, ralt [rstr "install", rstr "remove"], .wb],
  -- \bgit\s+(commit|push|pull|checkout|reset|merge|rebase|tag)\b
  rcat [.wb, rstr "git", rplus rws,
        ralt [rstr "commit", rstr "push", rstr "pull", rstr "checkout", rstr "reset",
              rstr "merge", rstr "rebase", rstr "tag"], .wb],
  -- \bcrontab\b
  rcat [.wb, rstr "crontab", .wb],
  -- \bscreen\b
  rcat [.wb, rstr "screen", .wb],
  -- \btmux\b
  rcat [.wb, rstr "tmux", .wb]
]

/-- Python whitespace for `str.strip` (the ASCII part). -/
def isPySpace (c : Char) : Bool :=
  c == ' ' || c == '\t' || c == '\n' || c == '\r' || c == '\x0b' || c == '\x0c'

/-- Python `str.strip()`. -/
def pyStrip (s : String) : String :=
  String.mk (((s.data.dropWhile isPySpace).reverse.dropWhile isPySpace).reverse)

/-- Does any TIER-3 pattern match anywhere in the (stripped) command? -/
def tier3Hit (c : String) : Bool :=
  TIER3_PATTERNS.any (fun p => reSearch true p c)

/-- Does any TIER-1 allowlist pattern match at the start of the command? -/
def tier1Hit (c : String) : Bool :=
  TIER1_PATTERNS.any (fun p => reMatch true p c)

/-- Does any TIER-2 signal match anywhere in the command? -/
def tier2Hit (c : String) : Bool :=
  TIER2_SIGNALS.any (fun p => reSearch true p c)

/-- Embeds `classify_command` from `emergent/tools/registry.py`.  The source breaks
out of the TIER-1 loop when a TIER-2 signal is present and then falls through
to the TIER-2 loop, which necessarily fires; that control flow is written here
as the inner conditional. -/
def classify_command (cmd : String) : SafetyTier :=
  let c := pyStrip cmd
  if c = "" then .TIER_2_CONFIRM
  else if tier3Hit c then .TIER_3_BLOCKED
  else if tier1Hit c then
    (if tier2Hit c then .TIER_2_CONFIRM else .TIER_1_AUTO)
  else if tier2Hit c then .TIER_2_CONFIRM
  else .TIER_2_CONFIRM

/-! ## String helpers

Kernel-computable counterparts of the Python string operations used by the
sources (`str.strip`, `str.lower`, `str.upper`, slicing, substring test,
prefix test).  They operate on `String.data` so that concrete witnesses
evaluate inside the kernel.
-/

/-- Python `str.lower()` (ASCII fragment). -/
def strLower (s : String) : String := String.mk (s.data.map Char.toLower)

/-- Python `str.upper()` (ASCII fragment). -/
def strUpper (s : String) : String := String.mk (s.data.map Char.toUpper)

/-- Python slicing `s[:n]` (by code points). -/
def takeChars (n : Nat) (s : String) : String := String.mk (s.data.take n)

/-- Python slicing `s[n:]` (by code points). -/
def dropChars (n : Nat) (s : String) : String := String.mk (s.data.drop n)

/-- Python `needle in hay` on character lists. -/
def listContains (needle : List Char) : List Char → Bool
  | [] => needle.isPrefixOf []
  | c :: t => needle.isPrefixOf (c :: t) || listContains needle t

/-- Python `hay.__contains__(needle)` for strings. -/
def strContains (hay needle : String) : Bool := listContains needle.data hay.data

/-- Python `s.startswith(pre)`. -/
def strStarts (s pre : String) : Bool := pre.data.isPrefixOf s.data

/-! ## Tool Registry — `emergent/tools/registry.py`

`ToolDefinition.description`, `.input_schema` and `.handler` are not
modelled: no operation embedded here consults them (`classify` reads only
the name, the execution context and the registered tier).  The registry
dict keyed by name becomes an association list where `register` replaces
any binding with the same name.
-/

inductive ExecutionContext where
  | USER_SESSION
  | CRON_HEADLESS
deriving Repr, DecidableEq

structure ToolDefinition where
  name : String
  safety_tier : SafetyTier
  timeout : Nat := 30
deriving Repr, DecidableEq

structure ToolRegistry where
  tools : List ToolDefinition
  execution_context : ExecutionContext
deriving Repr, DecidableEq

def ToolRegistry.register (reg : ToolRegistry) (t : ToolDefinition) : ToolRegistry :=
  { reg with tools := (reg.tools.filter (fun u => u.name ≠ t.name)) ++ [t] }

def ToolRegistry.findTool (reg : ToolRegistry) (tool_name : String) : Option ToolDefinition :=
  reg.tools.find? (fun t => t.name == tool_name)

/-- A Python `dict[str, Any]` tool input, modelled as string-valued pairs. -/
abbrev ToolInput := List (String × String)

/-- Python `str(tool_input.get(key, ""))`. -/
def getStr (inp : ToolInput) (key : String) : String :=
  match inp.find? (fun p => p.1 == key) with
  | some p => p.2
  | none => ""

/-- Embeds `ToolRegistry.classify` from `emergent/tools/registry.py`. -/
def ToolRegistry.classify (reg : ToolRegistry) (tool_name : String) (tool_input : ToolInput) :
    SafetyTier :=
  match reg.findTool tool_name with
  | none => .TIER_3_BLOCKED
  | some tool =>
    if tool_name = "shell_execute" then
      let command := getStr tool_input "command"
      let tier := classify_command command
      if tier = .TIER_2_CONFIRM ∧ reg.execution_context = .CRON_HEADLESS then
        .TIER_3_BLOCKED
      else tier
    else if tool_name = "file_write" then
      if reg.execution_context = .CRON_HEADLESS then .TIER_3_BLOCKED
      else .TIER_2_CONFIRM
    else if tool_name = "cron_schedule" then
      let action := getStr tool_input "action"
      if action = "list" then .TIER_1_AUTO
      else if reg.execution_context = .CRON_HEADLESS then .TIER_3_BLOCKED
      else .TIER_2_CONFIRM
    else tool.safety_tier

/-- Embeds `create_registry` from `emergent/tools/__init__.py`: the twelve tools it
registers, in registration order, with their registered default tiers. -/
def create_registry (execution_context : ExecutionContext) : ToolRegistry :=
  (ToolRegistry.mk [] execution_context)
    |>.register ⟨"shell_execute", .TIER_1_AUTO, 30⟩
    |>.register ⟨"file_read", .TIER_1_AUTO, 30⟩
    |>.register ⟨"file_write", .TIER_2_CONFIRM, 30⟩
    |>.register ⟨"web_fetch", .TIER_1_AUTO, 30⟩
    |>.register ⟨"system_info", .TIER_1_AUTO, 30⟩
    |>.register ⟨"list_directory", .TIER_1_AUTO, 30⟩
    |>.register ⟨"directory_tree", .TIER_1_AUTO, 30⟩
    |>.register ⟨"search_files", .TIER_1_AUTO, 30⟩
    |>.register ⟨"search_in_files", .TIER_1_AUTO, 30⟩
    |>.register ⟨"file_info", .TIER_1_AUTO, 30⟩
    |>.register ⟨"file_move", .TIER_2_CONFIRM, 30⟩
    |>.register ⟨"file_delete", .TIER_2_CONFIRM, 30⟩

/-! ## Agent runtime tool dispatch — `emergent/agent/runtime.py`

`AgentRuntime._handle_tool_calls`.  The argument list is the `tool_use`
blocks of one model response (the source first filters the content blocks
by `type == "tool_use"`).  The asynchronous executors are parameters:
`tier1Exec b` is the outcome `asyncio.gather` collects for an AUTO block
(`.error e` for an exception, `.ok r` for a result string, both produced
by `_execute_tool`), and `tier2Exec b` is the string `_handle_tier2`
returns for a CONFIRM block.  `asyncio.gather` returns results in argument
order, which the embedding keeps as a `map`.
-/

structure ToolUseBlock where
  id : String
  name : String
  input : ToolInput
deriving Repr, DecidableEq

structure ToolResult where
  tool_use_id : String
  content : String
  is_error : Bool
deriving Repr, DecidableEq

def handle_tool_calls (registry : Option ToolRegistry)
    (tier1Exec : ToolUseBlock → Except String String)
    (tier2Exec : ToolUseBlock → String)
    (tool_use_blocks : List ToolUseBlock) : List ToolResult :=
  match registry with
  | none =>
    tool_use_blocks.map (fun b =>
      ToolResult.mk b.id "Error: no tool registry configured" true)
  | some reg =>
    let classified := tool_use_blocks.map (fun b => (b, reg.classify b.name b.input))
    let tier1_blocks := (classified.filter (fun bt => bt.2 = .TIER_1_AUTO)).map (fun bt => bt.1)
    let other_blocks := classified.filter (fun bt => ¬ bt.2 = .TIER_1_AUTO)
    let tier1_results := tier1_blocks.map (fun b =>
      match tier1Exec b with
      | .error e => ToolResult.mk b.id ("Error: " ++ e) true
      | .ok r => ToolResult.mk b.id r false)
    let other_results := other_blocks.filterMap (fun bt =>
      if bt.2 = .TIER_3_BLOCKED then
        some (ToolResult.mk bt.1.id "BLOQUEADO: Este comando está bloqueado por seguridad." true)
      else if bt.2 = .TIER_2_CONFIRM then
        let r := tier2Exec bt.1
        some (ToolResult.mk bt.1.id r (strStarts r "Error:" || strStarts r "CANCELADO"))
      else none)
    tier1_results ++ other_results

/-! ## Context builder — `emergent/agent/context.py`

`build_context` after the parallel fetch: the four fetched components are
taken as inputs (a failed fetch is the absent component, exactly what the
source's `gather` + exception filtering produces), and the token-budget
truncation cascade is embedded.  History messages from the store carry
string contents, so `_estimate_message_tokens` is the sum of the
per-content estimates.
-/

structure ChatMessage where
  role : String
  content : String
deriving Repr, DecidableEq

def BUDGET_system_prompt : Nat := 800
def BUDGET_response_buffer : Nat := 4096
def TOTAL_CONTEXT_BUDGET : Nat := 20000

/-- Embeds `_estimate_tokens`: `len(text) // 4`. -/
def estimate_tokens (text : String) : Nat := text.length / 4

/-- Embeds `_estimate_message_tokens` on string-content messages. -/
def estimate_message_tokens (messages : List ChatMessage) : Nat :=
  (messages.map (fun m => estimate_tokens m.content)).sum

structure BuiltContext where
  profile_text : Option String
  memories : Option (List String)
  summary : Option String
  history : List ChatMessage
deriving Repr, DecidableEq

/-- Step 4 of the cascade: `while history and total_used > available and
len(history) > 4: history.pop(0)`. -/
def truncate_history (available : Nat) : List ChatMessage → Nat → List ChatMessage × Nat
  | [], total_used => ([], total_used)
  | m :: rest, total_used =>
    if total_used > available ∧ (m :: rest).length > 4 then
      truncate_history available rest (total_used - estimate_tokens m.content)
    else (m :: rest, total_used)

/-- Embeds `ContextBuilder.build_context` from the token-budget section onward;
also returns the source's running `total_used`. -/
def build_context (context_budget : Nat) (profile0 : Option String)
    (memories0 : Option (List String)) (summary0 : Option String)
    (history : List ChatMessage) : BuiltContext × Nat :=
  let fixed_tokens := BUDGET_system_prompt + BUDGET_response_buffer
  let available := context_budget - fixed_tokens
  -- `if profile_text else 0`: an empty string is falsy and counts 0 anyway
  let profile_tokens := match profile0 with
    | some t => estimate_tokens t
    | none => 0
  let memories_tokens := ((memories0.getD []).map estimate_tokens).sum
  let summary_tokens := match summary0 with
    | some t => estimate_tokens t
    | none => 0
  let history_tokens := estimate_message_tokens history
  let total0 := profile_tokens + memories_tokens + summary_tokens + history_tokens
  if total0 > available then
    -- 1. drop profile
    let step1 :=
      if profile_tokens > 0 ∧ total0 > available then ((none : Option String), total0 - profile_tokens)
      else (profile0, total0)
    let profile1 := step1.1
    let total1 := step1.2
    -- 2. reduce memories to the top result (`memories and len(memories) > 1`)
    let step2 :=
      match memories0 with
      | some ms =>
        if 1 < ms.length ∧ total1 > available then
          (some (ms.take 1), total1 - memories_tokens + estimate_tokens (ms.headD ""))
        else (memories0, total1)
      | none => (memories0, total1)
    let memories1 := step2.1
    let total2 := step2.2
    -- 3. drop summary if there is recent history (`summary and history`)
    let step3 :=
      match summary0 with
      | some st =>
        if st ≠ "" ∧ history ≠ [] ∧ total2 > available then ((none : Option String), total2 - summary_tokens)
        else (summary0, total2)
      | none => (summary0, total2)
    let summary1 := step3.1
    let total3 := step3.2
    -- 4. truncate history from the oldest end
    let step4 := truncate_history available history total3
    (BuiltContext.mk profile1 memories1 summary1 step4.1, step4.2)
  else (BuiltContext.mk profile0 memories0 summary0 history, total0)

/-- Estimated tokens of the components a built context actually returns. -/
def contextEstimate (b : BuiltContext) : Nat :=
  (match b.profile_text with
    | some t => estimate_tokens t
    | none => 0)
  + ((b.memories.getD []).map estimate_tokens).sum
  + (match b.summary with
    | some t => estimate_tokens t
    | none => 0)
  + estimate_message_tokens b.history

/-! ## Memory store — `emergent/memory/store.py`

The `user_profile` table (primary key `key`) becomes a list of entries;
`INSERT OR REPLACE` removes any row with the same key and inserts the new
row.  Confidences are embedded as rationals and timestamps as integers
counted in days, so `datetime('now', '-30 days')` is `now - 30`.
-/

structure ProfileEntry where
  key : String
  value : String
  confidence : ℚ
  updated_at : ℤ
deriving Repr, DecidableEq

abbrev ProfileStore := List ProfileEntry

def profileFind (store : ProfileStore) (key : String) : Option ProfileEntry :=
  store.find? (fun e => e.key == key)

def profileReplace (store : ProfileStore) (e : ProfileEntry) : ProfileStore :=
  (store.filter (fun u => u.key ≠ e.key)) ++ [e]

/-- Embeds `MemoryStore.set_profile_key`; `now` is `CURRENT_TIMESTAMP`. -/
def set_profile_key (store : ProfileStore) (key value : String) (confidence : ℚ)
    (now : ℤ) : ProfileStore :=
  match profileFind store key with
  | some existing =>
    if confidence ≤ existing.confidence + 0.1 then store
    else profileReplace store (ProfileEntry.mk key value confidence now)
  | none => profileReplace store (ProfileEntry.mk key value confidence now)

/-- Embeds `MemoryStore.decay_profile_confidence`: the `UPDATE` sets
`confidence = MAX(0.1, confidence - 0.05)` and refreshes `updated_at` on
rows with `updated_at < now - 30 days`, then the `DELETE` drops rows with
`confidence < 0.1`. -/
def decay_profile_confidence (store : ProfileStore) (now : ℤ) : ProfileStore :=
  let updated := store.map (fun e =>
    if e.updated_at < now - 30 then
      { e with confidence := max 0.1 (e.confidence - 0.05), updated_at := now }
    else e)
  updated.filter (fun e => ¬ e.confidence < 0.1)

/-- The decay operation as the specification words it ("subtracts 0.05 from
entries older than 30 days; entries falling below 0.1 are deleted"): the
same pass without the `MAX(0.1, ...)` floor.  Used only to compare the
specified behaviour with the implemented one. -/
def decaySpecified (store : ProfileStore) (now : ℤ) : ProfileStore :=
  let updated := store.map (fun e =>
    if e.updated_at < now - 30 then
      { e with confidence := e.confidence - 0.05, updated_at := now }
    else e)
  updated.filter (fun e => ¬ e.confidence < 0.1)

/-! ## Summarizer — `emergent/memory/summarizer.py`

The Haiku call is a parameter `llm`: for attempt number `a` (0-based),
`llm a` is either `.error ()` (the call raised) or `.ok blocks`, where each
block is `some text` when it has a `text` attribute and `none` otherwise.
History contents from the store are strings, so the
`isinstance(m.get("content"), str)` filter keeps every message.
-/

def MIN_SUMMARY_CHARS : Nat := 50
def MAX_SUMMARY_CHARS : Nat := 800
def MAX_RETRIES : Nat := 2

/-- Python `sep.join(parts)`. -/
def joinWith (sep : String) : List String → String
  | [] => ""
  | [p] => p
  | p :: ps => p ++ sep ++ joinWith sep ps

/-- The first content block with a `text` attribute. -/
def firstTextBlock : List (Option String) → Option String
  | [] => none
  | some t :: _ => some t
  | none :: rest => firstTextBlock rest

/-- One conversation line: `"[" + role.upper() + "]: " + content[:500]`. -/
def formatTurn (m : ChatMessage) : String :=
  "[" ++ strUpper m.role ++ "]: " ++ takeChars 500 m.content

/-- The `for attempt in range(MAX_RETRIES + 1)` loop. -/
def summarizeAttempts (llm : Nat → Except Unit (List (Option String))) :
    List Nat → Option String
  | [] => none
  | a :: rest =>
    match llm a with
    | .error _ => summarizeAttempts llm rest
    | .ok blocks =>
      let summary := match firstTextBlock blocks with
        | some t => pyStrip t
        | none => ""
      if MIN_SUMMARY_CHARS ≤ summary.length ∧ summary.length ≤ MAX_SUMMARY_CHARS then
        some summary
      else summarizeAttempts llm rest

/-- Embeds `summarize_conversation`. -/
def summarize_conversation (llm : Nat → Except Unit (List (Option String)))
    (messages : List ChatMessage) : Option String :=
  if messages = [] then none
  else
    let conversation_text := joinWith "\n" (messages.map formatTurn)
    if conversation_text.length < MIN_SUMMARY_CHARS then none
    else summarizeAttempts llm [0, 1, 2]

/-- The auto-summarization caller (`channels/telegram.py`, `channels/terminal.py`):
`if new_summary: save_session_summary(...)` — the store gains the summary only
when the optional result is truthy (present and non-empty). -/
def auto_summarize_step (llm : Nat → Except Unit (List (Option String)))
    (history : List ChatMessage) (summaries : List String) : List String :=
  match summarize_conversation llm history with
  | some s => if s.length ≠ 0 then summaries ++ [s] else summaries
  | none => summaries

/-! ## Cron tool — `emergent/tools/cron.py`

`CronTrigger.from_crontab` and the APScheduler job store are external to
the repository; the parser is a parameter `parse_crontab` (`true` when the
expression parses, `false` when `from_crontab` raises) and the job store a
list where `add_job(..., replace_existing=True)` replaces by id.
`fresh_id` stands for `str(uuid.uuid4())[:8]`, the default used when no
`job_id` is supplied.  A raised `SafetyViolationError` is `.error`; the
returned strings (including the `"Error: ..."` ones) are `.ok`.
-/

def MIN_INTERVAL_MINUTES : Nat := 5

structure CronJob where
  id : String
  name : String
  cron_expression : String
  prompt : String
deriving Repr, DecidableEq

def BLOCKED_INTENT : List String :=
  ["rm ", "kill ", "sudo ", "delete ", "remove ", "format ", "drop "]

def addJob (sched : List CronJob) (job : CronJob) : List CronJob :=
  (sched.filter (fun j => j.id ≠ job.id)) ++ [job]

def getStrD (inp : ToolInput) (key dflt : String) : String :=
  match inp.find? (fun p => p.1 == key) with
  | some p => p.2
  | none => dflt

/-- Embeds `_create_job`. -/
def create_job (parse_crontab : String → Bool) (fresh_id : String)
    (sched : List CronJob) (tool_input : ToolInput) :
    Except String String × List CronJob :=
  let cron_expr := getStr tool_input "cron_expression"
  let prompt := pyStrip (getStr tool_input "prompt")
  let job_id := getStrD tool_input "job_id" fresh_id
  if cron_expr = "" then (.ok "Error: cron_expression is required", sched)
  else if prompt = "" then (.ok "Error: prompt is required", sched)
  else if 500 < prompt.length then (.ok "Error: prompt exceeds 500 characters", sched)
  else if BLOCKED_INTENT.any (fun b => strContains (strLower prompt) b) then
    (.error "CRON_PROMPT_BLOCKED: cron prompts cannot contain write/destructive intent", sched)
  else if ¬ parse_crontab cron_expr then
    (.ok ("Error: invalid cron expression " ++ cron_expr), sched)
  else
    (.ok ("Job " ++ job_id ++ " creado con cron " ++ cron_expr),
     addJob sched (CronJob.mk job_id ("emergent:" ++ takeChars 30 prompt) cron_expr prompt))

/-! ## Web fetch — `emergent/tools/web.py`

`_PRIVATE_IP_PATTERNS` are compiled without `IGNORECASE` and checked with
`pattern.match`.  `urllib.parse.urlparse(url).hostname` (external parsing,
which lowercases the host) is taken as an input alongside the raw url.
Everything from the `httpx` request onward is the parameter `net`; the
conclusion of the safety theorems holds for every `net`, which is how
"no network request was performed" is expressed.
-/

/-- Pattern `^127\.` -/
def rePriv127 : Re := rstr "127."

/-- Pattern `^10\.` -/
def rePriv10 : Re := rstr "10."

/-- Pattern `^192\.168\.` -/
def rePriv192168 : Re := rstr "192.168."

/-- Pattern `^172\.(1[6-9]|2[0-9]|3[01])\.` -/
def rePriv172 : Re :=
  rcat [rstr "172.",
        ralt [rcat [.lit '1', .cls false [('6', '9')]],
              rcat [.lit '2', .cls false [('0', '9')]],
              rcat [.lit '3', rcls1 ['0', '1']]],
        .lit '.']

/-- Pattern `^169\.254\.` -/
def rePriv169254 : Re := rstr "169.254."

/-- Pattern `^::1$` (the IPv6 loopback, exactly) -/
def rePrivLoop6 : Re := rcat [rstr "::1", .eos]

/-- Pattern `^fc00:` -/
def rePrivFc00 : Re := rstr "fc00:"

/-- Pattern `^fe80:` -/
def rePrivFe80 : Re := rstr "fe80:"

def PRIVATE_IP_PATTERNS : List Re :=
  [rePriv127, rePriv10, rePriv192168, rePriv172, rePriv169254, rePrivLoop6,
   rePrivFc00, rePrivFe80]

def BLOCKED_HOSTNAMES : List String := ["localhost", "127.0.0.1", "0.0.0.0", "::1"]

/-- Embeds `_check_ssrf` on the parsed hostname. -/
def check_ssrf (host : String) : Except String Unit :=
  if BLOCKED_HOSTNAMES.contains (strLower host) then
    .error ("SSRF_BLOCKED: " ++ host ++ " is a loopback/private address")
  else if PRIVATE_IP_PATTERNS.any (fun p => reMatch false p host) then
    .error ("SSRF_BLOCKED: " ++ host ++ " is a private IP address")
  else .ok ()

/-- Embeds `web_fetch` up to and including the SSRF gate; `host` is
`urlparse(url).hostname or ""` of the (scheme-upgraded) url. -/
def web_fetch (net : String → String) (url0 : String) (host : String) :
    Except String String :=
  let url := pyStrip url0
  if url = "" then .ok "Error: url is required"
  else
    let url1 := if strStarts url "http://" then "https://" ++ dropChars 7 url else url
    if ¬ strStarts url1 "https://" then .ok "Error: only https urls are supported"
    else
      match check_ssrf host with
      | .error e => .error e
      | .ok _ => .ok (net url1)

/-! The specified SSRF predicate, for comparison with the implemented one.
It reads the spec's list of ranges semantically: a host is private when its
dotted-quad parse lies in 127/8, 10/8, 192.168/16, 172.16-31/12 or
169.254/16, or when it is the IPv6 loopback `::1`, or when its leading
hexadecimal group places it in `fc00::/7` (first group `fc00`-`fdff`) or
`fe80::/10` (first group `fe80`-`febf`). -/

def parseDecimal (cs : List Char) : Option Nat :=
  if cs = [] then none
  else if cs.any (fun c => ¬ c.isDigit) then none
  else if cs.length > 1 ∧ cs.headD '0' = '0' then none
  else some (cs.foldl (fun n c => n * 10 + (c.toNat - 48)) 0)

def splitOnChar (sep : Char) : List Char → List (List Char)
  | [] => [[]]
  | c :: t =>
    let rest := splitOnChar sep t
    if c == sep then [] :: rest
    else match rest with
      | g :: gs => (c :: g) :: gs
      | [] => [[c]]

/-- Dotted-quad IPv4 parse (canonical decimal, each octet 0-255). -/
def parseIPv4 (host : String) : Option (Nat × Nat × Nat × Nat) :=
  match (splitOnChar '.' host.data).map parseDecimal with
  | [some a, some b, some c, some d] =>
    if a ≤ 255 ∧ b ≤ 255 ∧ c ≤ 255 ∧ d ≤ 255 then some (a, b, c, d) else none
  | _ => none

def parseHexDigit (c : Char) : Option Nat :=
  if c.isDigit then some (c.toNat - 48)
  else if 'a' ≤ c ∧ c ≤ 'f' then some (c.toNat - 87)
  else none

/-- Value of the leading hexadecimal group of an IPv6 literal (lowercased). -/
def ipv6FirstGroup (host : String) : Option Nat :=
  let g := host.data.takeWhile (fun c => c ≠ ':')
  if g = [] ∨ 4 < g.length ∨ ¬ strContains host ":" then none
  else (g.map parseHexDigit).foldl
    (fun acc d? => match acc, d? with
      | some acc, some d => some (acc * 16 + d)
      | _, _ => none) (some 0)

/-- The spec's private-range predicate (§ tool contracts, SSRF check). -/
def specSsrfPrivateHost (host : String) : Bool :=
  (match parseIPv4 host with
    | some (a, b, _, _) =>
      a = 127 ∨ a = 10 ∨ (a = 192 ∧ b = 168) ∨ (a = 172 ∧ 16 ≤ b ∧ b ≤ 31) ∨
      (a = 169 ∧ b = 254)
    | none => false)
  || host = "::1"
  || (match ipv6FirstGroup host with
    | some g => (0xfc00 ≤ g ∧ g ≤ 0xfdff) ∨ (0xfe80 ≤ g ∧ g ≤ 0xfebf)
    | none => false)

/-! ## File tools — `emergent/tools/files.py`

Paths are embedded as component lists; `Path.resolve()` becomes lexical
normalization that removes `.` and pops on `..` (staying at `/` when the
stack is empty), with symlinks not modelled.  `SANDBOX_ROOT` (`Path.home()`)
is a parameter.  The filesystem is a list of `(absolute path, kind)`
entries.  A raised `SafetyViolationError` is `.error`; returned strings
(including the `"Error: ..."` ones) are `.ok`.
-/

def SENSITIVE_PATTERNS : List String :=
  [".env", "secrets", "/etc/shadow", "/etc/passwd", "/etc/sudoers",
   ".ssh/id_rsa", ".ssh/id_ed25519", ".ssh/id_ecdsa", ".ssh/id_dsa",
   ".ssh/authorized_keys", "credentials", "config/database"]

def SENSITIVE_EXTENSIONS : List String := [".pem", ".key", ".p12", ".pfx"]

abbrev AbsPath := List String

/-- Raw slash-separated components of a path string (empty parts dropped,
as `pathlib` does; `.` parts are also dropped at parse time by `pathlib`,
but they are kept here and skipped during normalization, which ends in the
same resolved path, and `Path(path).parts` never contains `.` either way). -/
def splitParts (s : String) : List String :=
  ((splitOnChar '/' s.data).map String.mk).filter (fun p => p ≠ "")

/-- Lexical `Path.resolve()` over an absolute component stack. -/
def normParts (acc : List String) : List String → List String
  | [] => acc.reverse
  | c :: t =>
    if c = "." then normParts acc t
    else if c = ".." then normParts acc.tail t
    else normParts (c :: acc) t

def interSlash : List String → String
  | [] => ""
  | [p] => p
  | p :: ps => p ++ "/" ++ interSlash ps

/-- Python `str(resolved)` for an absolute component list. -/
def joinAbs (ps : AbsPath) : String := "/" ++ interSlash ps

/-- Python `PurePath.suffix` of a single name. -/
def pathSuffix (name : String) : String :=
  let ext := name.data.reverse.takeWhile (fun c => c ≠ '.')
  if ext.length = name.data.length then ""
  else if ext.length = 0 then ""
  else if ext.length = name.data.length - 1 then ""
  else "." ++ String.mk ext.reverse

/-- Embeds `_resolve_path`. -/
def resolve_path (root : AbsPath) (path_str : String) : Except String AbsPath :=
  let parts := splitParts path_str
  let resolved := normParts [] (if strStarts path_str "/" then parts else root ++ parts)
  if ¬ root.isPrefixOf resolved then
    .error ("OUTSIDE_SANDBOX: path " ++ path_str ++ " resolves outside the sandbox")
  else if parts.contains ".." then
    .error ("PATH_TRAVERSAL: .. not allowed in path " ++ path_str)
  else
    let path_lower := strLower (joinAbs resolved)
    if SENSITIVE_PATTERNS.any (fun pat => strContains path_lower (strLower pat)) then
      .error "SENSITIVE_PATH: sensitive file"
    else if SENSITIVE_EXTENSIONS.contains (strLower (pathSuffix ((resolved.getLastD "")))) then
      .error "SENSITIVE_PATH: extension is blocked"
    else .ok resolved

inductive FsKind where
  | file
  | dir
  | symlink
  | other
deriving Repr, DecidableEq

structure FileSystem where
  entries : List (AbsPath × FsKind)
deriving Repr, DecidableEq

def FileSystem.existsPath (fs : FileSystem) (p : AbsPath) : Bool :=
  fs.entries.any (fun e => e.1 == p)

def FileSystem.kindOf (fs : FileSystem) (p : AbsPath) : Option FsKind :=
  (fs.entries.find? (fun e => e.1 == p)).map (fun e => e.2)

/-- Does the directory have any entry strictly below it (`any(p.iterdir())`)? -/
def FileSystem.hasChild (fs : FileSystem) (p : AbsPath) : Bool :=
  fs.entries.any (fun e => p.length < e.1.length && p.isPrefixOf e.1)

/-- Python `unlink` / `rmdir`: remove exactly this path. -/
def FileSystem.removeExact (fs : FileSystem) (p : AbsPath) : FileSystem :=
  FileSystem.mk (fs.entries.filter (fun e => e.1 ≠ p))

/-- Python `shutil.rmtree`: remove the path and everything below it. -/
def FileSystem.removeTree (fs : FileSystem) (p : AbsPath) : FileSystem :=
  FileSystem.mk (fs.entries.filter (fun e => ¬ p.isPrefixOf e.1))

structure FileDeleteInput where
  path : String
  recursive : Bool
deriving Repr, DecidableEq

/-- Embeds `file_delete`: outcome and resulting filesystem. -/
def file_delete (root : AbsPath) (fs : FileSystem) (inp : FileDeleteInput) :
    Except String String × FileSystem :=
  if inp.path = "" then (.ok "Error: path is required", fs)
  else
    match resolve_path root inp.path with
    | .error e => (.error e, fs)
    | .ok resolved =>
      if ¬ fs.existsPath resolved then
        (.ok ("Error: " ++ joinAbs resolved ++ " does not exist"), fs)
      else if resolved = root then
        (.error "PROTECTED_PATH: cannot delete sandbox root", fs)
      else
        match fs.kindOf resolved with
        | some .file =>
          (.ok ("Deleted file: " ++ joinAbs resolved), fs.removeExact resolved)
        | some .symlink =>
          (.ok ("Deleted file: " ++ joinAbs resolved), fs.removeExact resolved)
        | some .dir =>
          if ¬ inp.recursive then
            if fs.hasChild resolved then
              (.ok "Error: directory is not empty, use recursive=true", fs)
            else (.ok ("Deleted directory: " ++ joinAbs resolved), fs.removeExact resolved)
          else (.ok ("Deleted directory: " ++ joinAbs resolved), fs.removeTree resolved)
        | _ => (.ok ("Error: " ++ joinAbs resolved ++ " is not a regular file or directory"), fs)

/-- Patterns free of the end anchor and the word boundary; matches of such a
pattern survive extending the input on the right. -/
def Re.noAnchor : Re → Bool
  | .eos => false
  | .wb => false
  | .cat r1 r2 => r1.noAnchor && r2.noAnchor
  | .alt r1 r2 => r1.noAnchor && r2.noAnchor
  | .star r => r.noAnchor
  | _ => true

/-- The textual prefixes that the SSRF pattern list actually recognizes; the
16 `172.16.`–`172.31.` prefixes spell out the second octet range of
172.16/12.  Used to state the amended SSRF claim. -/
def SPEC_PRIVATE_PREFIXES : List String :=
  ["127.", "10.", "192.168.", "169.254.", "fc00:", "fe80:",
   "172.16.", "172.17.", "172.18.", "172.19.", "172.20.", "172.21.",
   "172.22.", "172.23.", "172.24.", "172.25.", "172.26.", "172.27.",
   "172.28.", "172.29.", "172.30.", "172.31."]

/-! ## Helper lemmas -/

theorem summarizeAttempts_length (llm : Nat → Except Unit (List (Option String)))
    (l : List Nat) (s : String) (h : summarizeAttempts llm l = some s) :
    MIN_SUMMARY_CHARS ≤ s.length ∧ s.length ≤ MAX_SUMMARY_CHARS := by
  induction l with
  | nil => simp [summarizeAttempts] at h
  | cons a rest ih =>
    unfold summarizeAttempts at h
    cases hl : llm a with
    | error e => rw [hl] at h; exact ih h
    | ok blocks =>
      rw [hl] at h
      dsimp only at h
      split at h
      next hcond =>
        injection h with h2
        rw [h2] at hcond
        exact hcond
      next => exact ih h

theorem classified_filter_fst (blocks : List ToolUseBlock) (f : ToolUseBlock → SafetyTier)
    (p : SafetyTier → Prop) [DecidablePred p] :
    (((blocks.map (fun b => (b, f b))).filter (fun bt => p bt.2)).map (fun bt => bt.1)) =
      blocks.filter (fun b => p (f b)) := by
  induction blocks with
  | nil => rfl
  | cons b rest ih =>
    by_cases hb : p (f b) <;> simp [hb, ih]

/-! ## The claims -/

/-- C1: any command whose stripped form matches a TIER-3 blocklist pattern is
classified `TIER_3_BLOCKED`, no matter which TIER-1 or TIER-2 patterns also
match. -/
theorem tier3_match_always_blocked (cmd : String) (h : tier3Hit (pyStrip cmd) = true) :
    classify_command cmd = SafetyTier.TIER_3_BLOCKED := by
  unfold classify_command
  by_cases hc : pyStrip cmd = ""
  · rw [hc] at h
    exact absurd h (by decide)
  · simp [hc, h]

theorem tier3_match_always_blocked_witness :
    tier3Hit (pyStrip "sudo ls") = true ∧
      classify_command "sudo ls" = SafetyTier.TIER_3_BLOCKED :=
  ⟨by decide, tier3_match_always_blocked "sudo ls" (by decide)⟩

/-- C2 counterexample: `file_delete` is registered with default tier CONFIRM
and is not special-cased in `classify`, so its CONFIRM result is NOT promoted
to BLOCKED in the headless registry. -/
theorem headless_confirm_counterexample :
    (create_registry .USER_SESSION).classify "file_delete" [] = SafetyTier.TIER_2_CONFIRM ∧
      (create_registry .CRON_HEADLESS).classify "file_delete" [] = SafetyTier.TIER_2_CONFIRM ∧
      ¬ (create_registry .CRON_HEADLESS).classify "file_delete" [] = SafetyTier.TIER_3_BLOCKED :=
  ⟨by decide, by decide, by decide⟩

/-- C2 amended: the headless CONFIRM-to-BLOCKED promotion holds for the three
context-sensitive tools (`shell_execute`, `file_write`, `cron_schedule`). -/
theorem headless_blocks_confirm_context_tools (tools : List ToolDefinition)
    (name : String) (input : ToolInput)
    (hname : name = "shell_execute" ∨ name = "file_write" ∨ name = "cron_schedule")
    (h : (ToolRegistry.mk tools .USER_SESSION).classify name input = SafetyTier.TIER_2_CONFIRM) :
    (ToolRegistry.mk tools .CRON_HEADLESS).classify name input = SafetyTier.TIER_3_BLOCKED := by
  unfold ToolRegistry.classify at h ⊢
  have hfind : (ToolRegistry.mk tools ExecutionContext.CRON_HEADLESS).findTool name
      = (ToolRegistry.mk tools ExecutionContext.USER_SESSION).findTool name := rfl
  rw [hfind]
  cases hf : (ToolRegistry.mk tools ExecutionContext.USER_SESSION).findTool name with
  | none => rw [hf] at h
  | some tool =>
    rw [hf] at h
    rcases hname with rfl | rfl | rfl
    · simp only [if_pos rfl] at h ⊢
      simp at h
      simp [h]
    · simp only [if_neg (by decide : ¬("file_write" = "shell_execute")), if_pos rfl] at h ⊢
      simp
    · simp only [if_neg (by decide : ¬("cron_schedule" = "shell_execute")),
        if_neg (by decide : ¬("cron_schedule" = "file_write")), if_pos rfl] at h ⊢
      by_cases ha : getStr input "action" = "list"
      · simp [ha] at h
      · simp [ha]

theorem headless_blocks_confirm_context_tools_witness :
    (ToolRegistry.mk (create_registry .USER_SESSION).tools .CRON_HEADLESS).classify
        "file_write" [] = SafetyTier.TIER_3_BLOCKED :=
  headless_blocks_confirm_context_tools (create_registry .USER_SESSION).tools
    "file_write" [] (Or.inr (Or.inl rfl)) (by decide)

/-- C3 counterexample: with a CONFIRM tool before an AUTO tool in the same
response, the results come back AUTO-first, not in the original block order
(the ids still link each result to its block). -/
theorem tool_result_order_counterexample :
    (handle_tool_calls (some (create_registry .USER_SESSION))
        (fun _ => .ok "ok") (fun _ => "done")
        [ToolUseBlock.mk "id1" "file_write" [], ToolUseBlock.mk "id2" "file_read" []]).map
        ToolResult.tool_use_id = ["id2", "id1"] ∧
      ["id2", "id1"] ≠ ["id1", "id2"] :=
  ⟨by decide, by decide⟩

/-- C3 amended: the results are exactly one per block, each carrying its
block's `tool_use_id`; all AUTO-classified blocks come first in their
original relative order, followed by the CONFIRM/BLOCKED blocks in their
original relative order. -/
theorem tool_result_order_and_linkage (reg : ToolRegistry)
    (tier1Exec : ToolUseBlock → Except String String)
    (tier2Exec : ToolUseBlock → String) (blocks : List ToolUseBlock) :
    (handle_tool_calls (some reg) tier1Exec tier2Exec blocks).map ToolResult.tool_use_id =
      ((blocks.filter (fun b => reg.classify b.name b.input = SafetyTier.TIER_1_AUTO)).map
          ToolUseBlock.id) ++
        ((blocks.filter (fun b => ¬ reg.classify b.name b.input = SafetyTier.TIER_1_AUTO)).map
          ToolUseBlock.id) := by
  unfold handle_tool_calls
  dsimp only
  rw [List.map_append]
  congr 1
  · rw [← classified_filter_fst blocks (fun b => reg.classify b.name b.input)
      (fun t => t = SafetyTier.TIER_1_AUTO)]
    simp only [List.map_map]
    apply List.map_congr_left
    intro bt _
    simp only [Function.comp]
    cases htier : tier1Exec bt.1 <;> rfl
  · have hsub : ∀ l : List (ToolUseBlock × SafetyTier),
        (∀ bt ∈ l, ¬ bt.2 = SafetyTier.TIER_1_AUTO) →
        (l.filterMap (fun bt =>
          if bt.2 = SafetyTier.TIER_3_BLOCKED then
            some (ToolResult.mk bt.1.id "BLOQUEADO: Este comando está bloqueado por seguridad." true)
          else if bt.2 = SafetyTier.TIER_2_CONFIRM then
            some (ToolResult.mk bt.1.id (tier2Exec bt.1)
              (strStarts (tier2Exec bt.1) "Error:" || strStarts (tier2Exec bt.1) "CANCELADO"))
          else none)).map ToolResult.tool_use_id = l.map (fun bt => bt.1.id) := by
      intro l hl
      induction l with
      | nil => rfl
      | cons bt rest ih =>
        have hbt := hl bt (List.mem_cons_self bt rest)
        cases h2 : bt.2 <;> simp_all [List.filterMap_cons]
    rw [hsub _ (fun bt hbt => of_decide_eq_true ((List.mem_filter.mp hbt).2)),
      ← classified_filter_fst blocks (fun b => reg.classify b.name b.input)
        (fun t => ¬ t = SafetyTier.TIER_1_AUTO)]
    simp only [List.map_map]
    rfl

/-- C5 counterexample: on an entry older than 30 days with confidence 0.12,
the specified decay (subtract 0.05, delete below 0.1) deletes it, but the
implemented decay floors the confidence at 0.1 and keeps the entry. -/
theorem decay_floor_counterexample :
    decaySpecified [ProfileEntry.mk "color" "blue" 0.12 0] 100 = [] ∧
      decay_profile_confidence [ProfileEntry.mk "color" "blue" 0.12 0] 100 =
        [ProfileEntry.mk "color" "blue" 0.1 100] := by
  constructor
  · simp [decaySpecified]
    norm_num
  · simp [decay_profile_confidence]
    norm_num

/-- C5 amended: the monthly decay sets the confidence of every entry older
than 30 days to `max 0.1 (c - 0.05)` (also refreshing `updated_at`), so no
entry is pushed below 0.1 by the decay itself; the subsequent delete removes
only entries that were already below 0.1, and every entry with confidence at
least 0.1 survives the pass with exactly the floored decayed confidence. -/
theorem decay_floors_at_tenth (store : ProfileStore) (now : ℤ) (e : ProfileEntry)
    (he : e ∈ store) (hc : (0.1 : ℚ) ≤ e.confidence) :
    ∃ e' ∈ decay_profile_confidence store now,
      e'.key = e.key ∧ e'.value = e.value ∧
        e'.confidence =
          (if e.updated_at < now - 30 then max 0.1 (e.confidence - 0.05) else e.confidence) := by
  unfold decay_profile_confidence
  refine ⟨if e.updated_at < now - 30 then
      { e with confidence := max 0.1 (e.confidence - 0.05), updated_at := now }
    else e, ?_, ?_⟩
  · apply List.mem_filter.mpr
    constructor
    · exact List.mem_map_of_mem _ he
    · split
      · simp
      · simpa using hc
  · split <;> simp

theorem decay_floors_at_tenth_witness :
    ∃ e' ∈ decay_profile_confidence [ProfileEntry.mk "color" "blue" 0.12 0] 100,
      e'.key = "color" ∧ e'.value = "blue" ∧
        e'.confidence = (if (0 : ℤ) < 100 - 30 then max 0.1 ((0.12 : ℚ) - 0.05) else 0.12) :=
  decay_floors_at_tenth [ProfileEntry.mk "color" "blue" 0.12 0] 100
    (ProfileEntry.mk "color" "blue" 0.12 0) (by simp) (by norm_num)

/-- C6: `_create_job` never checks the fire interval against
`MIN_INTERVAL_MINUTES`: with any parser accepting the every-minute expression,
a job firing every minute is registered. -/
theorem create_job_no_interval_check (parse_crontab : String → Bool)
    (hp : parse_crontab "* * * * *" = true) :
    create_job parse_crontab "job1" []
        [("cron_expression", "* * * * *"), ("prompt", "check status"), ("job_id", "job1")] =
      (.ok "Job job1 creado con cron * * * * *",
       [CronJob.mk "job1" "emergent:check status" "* * * * *" "check status"]) := by
  unfold create_job
  dsimp only
  split_ifs with h1 h2 h3 h4 h5
  · exact absurd h1 (by decide)
  · exact absurd h2 (by decide)
  · exact absurd h3 (by decide)
  · exact absurd h4 (by decide)
  · rfl
  · rw [show getStr [("cron_expression", "* * * * *"), ("prompt", "check status"),
        ("job_id", "job1")] "cron_expression" = "* * * * *" from rfl] at h5
    exact absurd hp h5

theorem create_job_no_interval_check_witness :
    create_job (fun _ => true) "job1" []
        [("cron_expression", "* * * * *"), ("prompt", "check status"), ("job_id", "job1")] =
      (.ok "Job job1 creado con cron * * * * *",
       [CronJob.mk "job1" "emergent:check status" "* * * * *" "check status"]) :=
  create_job_no_interval_check (fun _ => true) rfl

/-- C9: a profile write whose confidence does not exceed the existing entry's
confidence by more than 0.1 leaves the store completely unchanged. -/
theorem profile_write_noop (store : ProfileStore) (key value : String) (c : ℚ) (now : ℤ)
    (e : ProfileEntry) (hfind : profileFind store key = some e)
    (hc : c ≤ e.confidence + 0.1) :
    set_profile_key store key value c now = store := by
  unfold set_profile_key
  rw [hfind]
  simp [hc]

theorem profile_write_noop_witness :
    set_profile_key [ProfileEntry.mk "editor" "neovim" 0.9 0] "editor" "vim" 0.8 5 =
      [ProfileEntry.mk "editor" "neovim" 0.9 0] :=
  profile_write_noop [ProfileEntry.mk "editor" "neovim" 0.9 0] "editor" "vim" 0.8 5
    (ProfileEntry.mk "editor" "neovim" 0.9 0) rfl (by norm_num)

/-- C10: an input whose (non-empty) path resolves to the sandbox root itself
makes `file_delete` raise a safety violation, and the filesystem is unchanged. -/
theorem file_delete_protects_root (root : AbsPath) (fs : FileSystem)
    (inp : FileDeleteInput) (hne : inp.path ≠ "")
    (hres : resolve_path root inp.path = .ok root)
    (hex : fs.existsPath root = true) :
    file_delete root fs inp = (.error "PROTECTED_PATH: cannot delete sandbox root", fs) := by
  unfold file_delete
  rw [if_neg hne, hres]
  simp [hex]

theorem file_delete_protects_root_witness :
    file_delete ["home", "user"]
        (FileSystem.mk [(["home", "user"], .dir), (["home", "user", "x.txt"], .file)])
        (FileDeleteInput.mk "." false) =
      (.error "PROTECTED_PATH: cannot delete sandbox root",
       FileSystem.mk [(["home", "user"], .dir), (["home", "user", "x.txt"], .file)]) :=
  file_delete_protects_root ["home", "user"]
    (FileSystem.mk [(["home", "user"], .dir), (["home", "user", "x.txt"], .file)])
    (FileDeleteInput.mk "." false) (by decide) rfl (by decide)

/-- C8: `summarize_conversation` returns a summary only when its stripped
length lies in `[50, 800]` (after at most 2 retries), and the
auto-summarization callers persist only such summaries, so no out-of-range
summary reaches the session-summary store. -/
theorem summary_length_invariant (llm : Nat → Except Unit (List (Option String)))
    (messages : List ChatMessage) :
    (∀ s : String, summarize_conversation llm messages = some s →
        MIN_SUMMARY_CHARS ≤ s.length ∧ s.length ≤ MAX_SUMMARY_CHARS) ∧
      (∀ (store : List String) (s : String), s ∈ auto_summarize_step llm messages store →
        s ∈ store ∨ (MIN_SUMMARY_CHARS ≤ s.length ∧ s.length ≤ MAX_SUMMARY_CHARS)) := by
  have hmain : ∀ s : String, summarize_conversation llm messages = some s →
      MIN_SUMMARY_CHARS ≤ s.length ∧ s.length ≤ MAX_SUMMARY_CHARS := by
    intro s h
    unfold summarize_conversation at h
    split at h
    · cases h
    · dsimp only at h
      split at h
      · cases h
      · exact summarizeAttempts_length llm [0, 1, 2] s h
  refine ⟨hmain, ?_⟩
  intro store s hs
  unfold auto_summarize_step at hs
  cases hsum : summarize_conversation llm messages with
  | none => rw [hsum] at hs; exact Or.inl hs
  | some s0 =>
    rw [hsum] at hs
    dsimp only at hs
    by_cases hlen : s0.length ≠ 0
    · rw [if_pos hlen] at hs
      rcases List.mem_append.mp hs with hmem | hmem
      · exact Or.inl hmem
      · have hss : s = s0 := by simpa using hmem
        exact Or.inr (hss ▸ hmain s0 hsum)
    · rw [if_neg hlen] at hs
      exact Or.inl hs

theorem summary_length_invariant_witness :
    MIN_SUMMARY_CHARS ≤ (String.mk (List.replicate 60 'a')).length ∧
      (String.mk (List.replicate 60 'a')).length ≤ MAX_SUMMARY_CHARS :=
  (summary_length_invariant (fun _ => .ok [some (String.mk (List.replicate 60 'a'))])
      [ChatMessage.mk "user" (String.mk (List.replicate 50 'b'))]).1
    (String.mk (List.replicate 60 'a')) (by decide)

theorem estimate_message_tokens_cons (m : ChatMessage) (rest : List ChatMessage) :
    estimate_message_tokens (m :: rest) =
      estimate_tokens m.content + estimate_message_tokens rest := by
  simp [estimate_message_tokens]

theorem truncate_history_total (available : Nat) (hist : List ChatMessage)
    (total X : Nat) (h : total = X + estimate_message_tokens hist) :
    (truncate_history available hist total).2 =
      X + estimate_message_tokens (truncate_history available hist total).1 := by
  induction hist generalizing total with
  | nil => simpa [truncate_history] using h
  | cons m rest ih =>
    unfold truncate_history
    split
    · apply ih
      rw [estimate_message_tokens_cons] at h
      omega
    · exact h

theorem truncate_history_length_ge (available : Nat) (hist : List ChatMessage) (total : Nat) :
    min 4 hist.length ≤ (truncate_history available hist total).1.length := by
  induction hist generalizing total with
  | nil => simp [truncate_history]
  | cons m rest ih =>
    unfold truncate_history
    split
    · next hcond =>
        have hrec := ih (total - estimate_tokens m.content)
        simp only [List.length_cons] at hcond hrec ⊢
        omega
    · simp only [List.length_cons]
      omega

theorem truncate_history_post (available : Nat) (hist : List ChatMessage) (total : Nat) :
    (truncate_history available hist total).2 ≤ available ∨
      (truncate_history available hist total).1.length ≤ 4 := by
  induction hist generalizing total with
  | nil => right; simp [truncate_history]
  | cons m rest ih =>
    unfold truncate_history
    split
    · exact ih _
    · next hcond =>
        rcases Decidable.not_and_iff_or_not.mp hcond with hna | hna
        · left
          omega
        · right
          simp only [List.length_cons] at hna ⊢
          omega

theorem est_take_one (ms : List String) :
    ((ms.take 1).map estimate_tokens).sum = estimate_tokens (ms.headD "") := by
  cases ms <;> simp [estimate_tokens]

theorem contextEstimate_mk (p : Option String) (m : Option (List String))
    (s : Option String) (h : List ChatMessage) :
    contextEstimate (BuiltContext.mk p m s h) =
      (match p with
        | some t => estimate_tokens t
        | none => 0)
      + ((m.getD []).map estimate_tokens).sum
      + (match s with
        | some t => estimate_tokens t
        | none => 0)
      + estimate_message_tokens h := rfl

theorem build_context_min4 (context_budget : Nat) (profile0 : Option String)
    (memories0 : Option (List String)) (summary0 : Option String)
    (history : List ChatMessage) :
    min 4 history.length ≤
      (build_context context_budget profile0 memories0 summary0 history).1.history.length := by
  unfold build_context
  dsimp only
  split
  · exact truncate_history_length_ge _ _ _
  · exact Nat.min_le_right 4 _

theorem build_context_tracks_estimate (context_budget : Nat) (profile0 : Option String)
    (memories0 : Option (List String)) (summary0 : Option String)
    (history : List ChatMessage) :
    (build_context context_budget profile0 memories0 summary0 history).2 =
      contextEstimate (build_context context_budget profile0 memories0 summary0 history).1 := by
  rcases profile0 with _ | p <;>
    rcases memories0 with _ | ms <;>
      rcases summary0 with _ | st <;>
        (unfold build_context
         dsimp only [Option.getD]
         split) <;>
        (dsimp only
         simp only [contextEstimate_mk]
         dsimp only [Option.getD]
         repeat' (split <;> dsimp only [Option.getD])) <;>
        (try apply truncate_history_total) <;>
          (try simp only [est_take_one]) <;> omega

theorem build_context_post (context_budget : Nat) (profile0 : Option String)
    (memories0 : Option (List String)) (summary0 : Option String)
    (history : List ChatMessage) :
    (build_context context_budget profile0 memories0 summary0 history).2 ≤
        context_budget - (BUDGET_system_prompt + BUDGET_response_buffer) ∨
      (build_context context_budget profile0 memories0 summary0 history).1.history.length ≤ 4 := by
  unfold build_context
  dsimp only
  split
  · exact truncate_history_post _ _ _
  · next h0 => left; omega

/-- C4 counterexample: four large history messages cannot be truncated below
the 4-turn floor, so the built context exceeds the available budget
(budget 4900 leaves 4 available tokens; the four 8-character messages
estimate to 8 tokens). -/
theorem context_budget_counterexample :
    ¬ contextEstimate (build_context 4900 none none none
        [ChatMessage.mk "user" "12345678", ChatMessage.mk "assistant" "12345678",
         ChatMessage.mk "user" "12345678", ChatMessage.mk "assistant" "12345678"]).1 ≤
      4900 - (BUDGET_system_prompt + BUDGET_response_buffer) := by decide

/-- C4 amended: the built context keeps at least `min 4 (original)` history
messages, and its estimated token total is within the available budget
unless the history is already at the 4-turn floor (at most 4 messages),
in which case the total may exceed the budget. -/
theorem context_budget_amended (context_budget : Nat) (profile0 : Option String)
    (memories0 : Option (List String)) (summary0 : Option String)
    (history : List ChatMessage) :
    min 4 history.length ≤
        (build_context context_budget profile0 memories0 summary0 history).1.history.length ∧
      (contextEstimate (build_context context_budget profile0 memories0 summary0 history).1 ≤
          context_budget - (BUDGET_system_prompt + BUDGET_response_buffer) ∨
        (build_context context_budget profile0 memories0 summary0 history).1.history.length ≤ 4) := by
  refine ⟨build_context_min4 _ _ _ _ _, ?_⟩
  have h1 := build_context_post context_budget profile0 memories0 summary0 history
  have h2 := build_context_tracks_estimate context_budget profile0 memories0 summary0 history
  rw [h2] at h1
  exact h1

theorem runRe_fuel_mono (ci : Bool) (fbig : Nat) :
    ∀ (f : Nat) (r : Re) (prev : Option Char) (s : List Char)
      (st : Option Char × List Char), f ≤ fbig → st ∈ runRe ci f r prev s →
      st ∈ runRe ci fbig r prev s := by
  induction fbig with
  | zero =>
    intro f r prev s st hle hmem
    interval_cases f
    simp [runRe] at hmem
  | succ g' ih =>
    intro f r prev s st hle hmem
    cases f with
    | zero => simp [runRe] at hmem
    | succ g =>
      have hg : g ≤ g' := Nat.succ_le_succ_iff.mp hle
      unfold runRe at hmem ⊢
      cases r with
      | eps => exact hmem
      | lit c =>
        cases s with
        | nil => exact hmem
        | cons d t => exact hmem
      | cls neg ranges =>
        cases s with
        | nil => exact hmem
        | cons d t => exact hmem
      | dot =>
        cases s with
        | nil => exact hmem
        | cons d t => exact hmem
      | eos => exact hmem
      | wb => exact hmem
      | cat r1 r2 =>
        rcases List.mem_flatMap.mp hmem with ⟨pr, hpr1, hpr2⟩
        exact List.mem_flatMap.mpr ⟨pr, ih g r1 prev s pr hg hpr1, ih g r2 pr.1 pr.2 st hg hpr2⟩
      | alt r1 r2 =>
        rcases List.mem_append.mp hmem with hm | hm
        · exact List.mem_append.mpr (Or.inl (ih g r1 prev s st hg hm))
        · exact List.mem_append.mpr (Or.inr (ih g r2 prev s st hg hm))
      | star r1 =>
        rcases List.mem_cons.mp hmem with hm | hm
        · exact List.mem_cons.mpr (Or.inl hm)
        · rcases List.mem_flatMap.mp hm with ⟨pr, hpr1, hpr2⟩
          refine List.mem_cons.mpr (Or.inr (List.mem_flatMap.mpr
            ⟨pr, ih g r1 prev s pr hg hpr1, ?_⟩))
          split at hpr2
          · next hlen => rw [if_pos hlen]; exact ih g (.star r1) pr.1 pr.2 st hg hpr2
          · simp at hpr2

theorem runRe_append (ci : Bool) (f : Nat) :
    ∀ (r : Re), r.noAnchor = true →
      ∀ (prev : Option Char) (s t : List Char) (p' : Option Char) (rem : List Char),
        (p', rem) ∈ runRe ci f r prev s → (p', rem ++ t) ∈ runRe ci f r prev (s ++ t) := by
  induction f with
  | zero =>
    intro r _ prev s t p' rem hmem
    simp [runRe] at hmem
  | succ g ih =>
    intro r hna prev s t p' rem hmem
    unfold runRe at hmem ⊢
    cases r with
    | eps =>
      dsimp only at hmem ⊢
      simp only [List.mem_singleton, Prod.mk.injEq] at hmem
      obtain ⟨rfl, rfl⟩ := hmem
      simp
    | lit c =>
      cases s with
      | nil => dsimp only at hmem; simp at hmem
      | cons d s2 =>
        simp only [List.cons_append]
        dsimp only at hmem ⊢
        split at hmem
        · next hc =>
            rw [if_pos hc]
            simp only [List.mem_singleton, Prod.mk.injEq] at hmem
            obtain ⟨rfl, rfl⟩ := hmem
            simp
        · simp at hmem
    | cls neg ranges =>
      cases s with
      | nil => dsimp only at hmem; simp at hmem
      | cons d s2 =>
        simp only [List.cons_append]
        dsimp only at hmem ⊢
        by_cases hc :
            (if neg = true then !clsMatches ci ranges d else clsMatches ci ranges d) = true
        · rw [if_pos hc] at hmem ⊢
          simp only [List.mem_singleton, Prod.mk.injEq] at hmem
          obtain ⟨rfl, rfl⟩ := hmem
          simp
        · rw [if_neg hc] at hmem
          simp at hmem
    | dot =>
      cases s with
      | nil => dsimp only at hmem; simp at hmem
      | cons d s2 =>
        simp only [List.cons_append]
        dsimp only at hmem ⊢
        split at hmem
        · simp at hmem
        · next hc =>
            rw [if_neg hc]
            simp only [List.mem_singleton, Prod.mk.injEq] at hmem
            obtain ⟨rfl, rfl⟩ := hmem
            simp
    | eos => simp [Re.noAnchor] at hna
    | wb => simp [Re.noAnchor] at hna
    | cat r1 r2 =>
      simp only [Re.noAnchor, Bool.and_eq_true] at hna
      dsimp only at hmem ⊢
      rcases List.mem_flatMap.mp hmem with ⟨pr, hpr1, hpr2⟩
      exact List.mem_flatMap.mpr ⟨(pr.1, pr.2 ++ t), ih r1 hna.1 prev s t pr.1 pr.2 hpr1,
        ih r2 hna.2 pr.1 pr.2 t p' rem hpr2⟩
    | alt r1 r2 =>
      simp only [Re.noAnchor, Bool.and_eq_true] at hna
      dsimp only at hmem ⊢
      rcases List.mem_append.mp hmem with hm | hm
      · exact List.mem_append.mpr (Or.inl (ih r1 hna.1 prev s t p' rem hm))
      · exact List.mem_append.mpr (Or.inr (ih r2 hna.2 prev s t p' rem hm))
    | star r1 =>
      simp only [Re.noAnchor] at hna
      dsimp only at hmem ⊢
      rcases List.mem_cons.mp hmem with hm | hm
      · simp only [Prod.mk.injEq] at hm
        obtain ⟨rfl, rfl⟩ := hm
        exact List.mem_cons.mpr (Or.inl rfl)
      · rcases List.mem_flatMap.mp hm with ⟨pr, hpr1, hpr2⟩
        split at hpr2
        · next hlen =>
            refine List.mem_cons.mpr (Or.inr (List.mem_flatMap.mpr
              ⟨(pr.1, pr.2 ++ t), ih r1 hna prev s t pr.1 pr.2 hpr1, ?_⟩))
            have hlen2 : (pr.2 ++ t).length < (s ++ t).length := by
              simp only [List.length_append]
              omega
            rw [if_pos hlen2]
            exact ih (.star r1) (by simpa [Re.noAnchor] using hna) pr.1 pr.2 t p' rem hpr2
        · simp at hpr2

theorem reMatchL_extend (ci : Bool) (r : Re) (hna : r.noAnchor = true)
    (p s : List Char) (hpre : p <+: s) (hm : reMatchL ci r p = true) :
    reMatchL ci r s = true := by
  obtain ⟨t, rfl⟩ := hpre
  unfold reMatchL at hm ⊢
  have hfuel : reFuel r p ≤ reFuel r (p ++ t) := by
    unfold reFuel
    have hlen : p.length ≤ (p ++ t).length := by simp
    exact Nat.mul_le_mul_left _ (by omega)
  have hnonempty : runRe ci (reFuel r p) r none p ≠ [] := by
    intro hemp
    rw [hemp] at hm
    simp at hm
  obtain ⟨st, hst⟩ := List.exists_mem_of_ne_nil _ hnonempty
  obtain ⟨p2, rem⟩ := st
  have h1 := runRe_append ci (reFuel r p) r hna none p t p2 rem hst
  have h2 := runRe_fuel_mono ci (reFuel r (p ++ t)) (reFuel r p) r none (p ++ t)
    (p2, rem ++ t) hfuel h1
  cases hL : (runRe ci (reFuel r (p ++ t)) r none (p ++ t)).isEmpty
  · rfl
  · exact absurd (List.isEmpty_iff.mp hL) (List.ne_nil_of_mem h2)

theorem private_pattern_of_prefix (host pre : String) (pat : Re)
    (hna : pat.noAnchor = true) (hpm : reMatchL false pat pre.data = true)
    (hmem : pat ∈ PRIVATE_IP_PATTERNS) (hpre : pre.data <+: host.data) :
    PRIVATE_IP_PATTERNS.any (fun p => reMatch false p host) = true := by
  refine List.any_eq_true.mpr ⟨pat, hmem, ?_⟩
  exact reMatchL_extend false pat hna pre.data host.data hpre hpm

/-- C7 counterexample: `fd00::1` lies in `fc00::/7` (the unique-local range
the spec names), but no pattern matches it — `^fc00:` only recognizes the
literal prefix — so `web_fetch` raises nothing and proceeds to the network
call. -/
theorem ssrf_fc00_counterexample :
    specSsrfPrivateHost "fd00::1" = true ∧
      check_ssrf "fd00::1" = .ok () ∧
      web_fetch (fun u => u) "https://[fd00::1]/" "fd00::1" =
        .ok "https://[fd00::1]/" :=
  ⟨by decide, by rfl, by rfl⟩

/-- C7 amended: `web_fetch` raises an SSRF safety violation before any
network request for every host that textually begins with `127.`, `10.`,
`192.168.`, `172.16.`–`172.31.`, `169.254.`, `fc00:` or `fe80:`, or whose
lowercase form is `localhost`, `127.0.0.1`, `0.0.0.0` or `::1` — the
conclusion holds for every network behaviour `net`, which is how "before
any network request" is expressed. -/
theorem ssrf_blocks_prefixed_hosts (host : String)
    (h : (∃ pre ∈ SPEC_PRIVATE_PREFIXES, strStarts host pre = true) ∨
      BLOCKED_HOSTNAMES.contains (strLower host) = true) :
    ∃ msg, check_ssrf host = .error msg ∧
      ∀ (net : String → String) (url : String),
        strStarts (pyStrip url) "https://" = true →
          web_fetch net url host = .error msg := by
  have herr : ∃ msg, check_ssrf host = Except.error msg := by
    by_cases hbn : BLOCKED_HOSTNAMES.contains (strLower host) = true
    · exact ⟨_, by unfold check_ssrf; rw [if_pos hbn]⟩
    · rcases h with ⟨pre, hmem, hpre⟩ | hbn2
      · have hp : pre.data <+: host.data := List.isPrefixOf_iff_prefix.mp hpre
        have hany : PRIVATE_IP_PATTERNS.any (fun p => reMatch false p host) = true := by
          fin_cases hmem <;>
            first
              | exact private_pattern_of_prefix host _ rePriv127 (by decide) (by decide)
                  (by decide) hp
              | exact private_pattern_of_prefix host _ rePriv10 (by decide) (by decide)
                  (by decide) hp
              | exact private_pattern_of_prefix host _ rePriv192168 (by decide) (by decide)
                  (by decide) hp
              | exact private_pattern_of_prefix host _ rePriv169254 (by decide) (by decide)
                  (by decide) hp
              | exact private_pattern_of_prefix host _ rePrivFc00 (by decide) (by decide)
                  (by decide) hp
              | exact private_pattern_of_prefix host _ rePrivFe80 (by decide) (by decide)
                  (by decide) hp
              | exact private_pattern_of_prefix host _ rePriv172 (by decide) (by decide)
                  (by decide) hp
        exact ⟨_, by unfold check_ssrf; rw [if_neg hbn, if_pos hany]⟩
      · exact absurd hbn2 hbn
  obtain ⟨msg, hmsg⟩ := herr
  refine ⟨msg, hmsg, ?_⟩
  intro net url hurl
  unfold web_fetch
  have hne : ¬ (pyStrip url = "") := by
    intro he
    rw [he] at hurl
    exact absurd hurl (by decide)
  have hhttp : strStarts (pyStrip url) "http://" = false := by
    obtain ⟨t, ht⟩ := List.isPrefixOf_iff_prefix.mp hurl
    unfold strStarts
    rw [← ht]
    rfl
  rw [if_neg hne]
  dsimp only
  rw [hhttp]
  simp only [Bool.false_eq_true, if_false, hurl, hmsg]
  simp

theorem ssrf_blocks_prefixed_hosts_witness :
    ∃ msg, check_ssrf "10.0.0.1" = .error msg ∧
      ∀ (net : String → String) (url : String),
        strStarts (pyStrip url) "https://" = true →
          web_fetch net url "10.0.0.1" = .error msg :=
  ssrf_blocks_prefixed_hosts "10.0.0.1" (Or.inl ⟨"10.", by decide, by decide⟩)
